import Mathlib

/-!
Verification of the credential-guard and dispatch glue of the PyQQMusic web
port (`src/web/app.py`) against its natural-language specification.

The Python module is embedded shallowly:
* external collaborators (the `qqmusic_api.Credential` object, the QR login
  flow, the parser) are modelled from the spec as opaque values plus an
  oracle recording the outcome of each external call;
* the module-level mutable state (`global_credential`, `is_logging_in`,
  the cookies file) becomes an explicit `ServerState` threaded through the
  handler;
* Python exceptions become an explicit `raised` flag on each step's output,
  with each `try`/`except`/`finally` written out explicitly;
* the handler additionally emits a trace of events (lock acquire/release,
  login calls, refresh calls, save calls, parser call) so that ordering and
  mutual-exclusion statements can be expressed.
-/

namespace PyQQMusic

/-! ## JSON values and the credential file (`qqMusicCookies.json`) -/

/-- JSON values, the possible results of `json.load` in
`load_credential_from_file` (src/web/app.py lines 94-108). -/
inductive JValue where
  | jnull
  | jbool (b : Bool)
  | jnum (n : Int)
  | jstr (s : String)
  | jarr (elems : List JValue)
  | jobj (fields : List (String × JValue))

/-- Whether a JSON value is an object (a Python dict after `json.load`). -/
def JValue.isObj : JValue → Bool
  | JValue.jobj _ => true
  | _ => false

/-- State of the durable storage file `qqMusicCookies.json`:
`none` means the file is absent; `some (Except.error ())` means it exists but
opening/`json.load` on it raises; `some (Except.ok v)` means it parses to the
JSON value `v`. -/
structure FsState where
  file : Option (Except Unit JValue)

/-- Fault oracle for the file-system calls made by the two storage helpers:
which of the underlying I/O operations raises when attempted. -/
structure IOFaults where
  createFails : Bool
  readFails : Bool
  writeFails : Bool
deriving DecidableEq, Repr

/-! ## The Credential collaborator -/

/-- Modelled from the spec: the external `qqmusic_api.Credential` collaborator
(its source is not under src/). The spec describes it as an opaque
authentication token set exposing `has_musicid()`, `has_musickey()`,
`is_expired()`, `can_refresh()`, in-place `refresh()` and serialization to a
flat key-value mapping. The four capability answers are carried as fields;
`ident` models Python object identity (in-place mutation preserves it, a
fresh login produces a new one); `payload` distinguishes serialized
contents. -/
structure Credential where
  musicid : Bool
  musickey : Bool
  expired : Bool
  refreshable : Bool
  ident : Nat
  payload : Nat
deriving DecidableEq, Repr

/-- Credential method has_musicid(). -/
def Credential.has_musicid (c : Credential) : Bool := c.musicid

/-- Credential method has_musickey(). -/
def Credential.has_musickey (c : Credential) : Bool := c.musickey

/-- Credential method is_expired(). -/
def Credential.is_expired (c : Credential) : Bool := c.expired

/-- Credential method can_refresh(). -/
def Credential.can_refresh (c : Credential) : Bool := c.refreshable

/-- Modelled from the spec: `refresh()` renews the existing credential's
expiry in place — same object identity, updated token contents — without a
full interactive login. -/
def Credential.refresh (c : Credential) : Credential :=
  { c with expired := false, payload := c.payload + 1 }

/-- Modelled from the spec: `as_dict()`, serialization of the credential to a
flat key-value mapping (the value stored under the "cookies" key of the
config file). -/
def Credential.as_dict (c : Credential) : JValue :=
  JValue.jobj
    [ ("musicid", JValue.jbool c.musicid)
    , ("musickey", JValue.jbool c.musickey)
    , ("expired", JValue.jbool c.expired)
    , ("refreshable", JValue.jbool c.refreshable)
    , ("ident", JValue.jnum (Int.ofNat c.ident))
    , ("payload", JValue.jnum (Int.ofNat c.payload)) ]

/-! ## The storage helpers (src/web/app.py lines 94-119) -/

/-- The JSON object written when the config file is first created
(line 100): a top-level object with an empty "cookies" map. -/
def emptyConfig : JValue := JValue.jobj [("cookies", JValue.jobj [])]

/-- Lines 103-105 of load_credential_from_file: open the file, `json.load`
it, and take `config.get("cookies", {})`. Any I/O fault, parse failure, or a
non-dict top level (on which `.get` raises AttributeError) is an error. -/
def readStep (f : IOFaults) (fs : FsState) : Except Unit JValue × FsState :=
  if f.readFails then (Except.error (), fs)
  else
    match fs.file with
    | Option.none => (Except.error (), fs)
    | some (Except.error _) => (Except.error (), fs)
    | some (Except.ok v) =>
      match v with
      | JValue.jobj kvs => (Except.ok ((kvs.lookup "cookies").getD (JValue.jobj [])), fs)
      | _ => (Except.error (), fs)

/-- Body of the `try` in load_credential_from_file (lines 96-105): create the
file with `emptyConfig` if absent, then read it. `Except.error ()` means an
exception reached the `except` clause at line 106. -/
def loadBody (f : IOFaults) (fs : FsState) : Except Unit JValue × FsState :=
  match fs.file with
  | Option.none =>
    if f.createFails then (Except.error (), fs)
    else readStep f ⟨some (Except.ok emptyConfig)⟩
  | some _ => readStep f fs

/-- load_credential_from_file (lines 94-108): the `except` clause swallows
every exception and returns the empty dict, so the function always returns a
JSON value and never raises. -/
def load_credential_from_file (f : IOFaults) (fs : FsState) : JValue × FsState :=
  match loadBody f fs with
  | (Except.ok v, fs1) => (v, fs1)
  | (Except.error _, fs1) => (JValue.jobj [], fs1)

/-- save_credential_to_file (lines 111-119): overwrite the file with
`{"cookies": credential.as_dict()}`; any write fault is swallowed and leaves
the file unchanged. The function never raises. -/
def save_credential_to_file (f : IOFaults) (c : Credential) (fs : FsState) : FsState :=
  if f.writeFails then fs
  else ⟨some (Except.ok (JValue.jobj [("cookies", c.as_dict)]))⟩

/-! ## The response envelope (`ApiResponseModel` / `ApiResponse`, lines 19-64) -/

/-- Python values appearing as fields of `ApiResponseModel`. `pynone` is
Python's None; `pydata` wraps an opaque payload returned by a dispatched
call. -/
inductive PyVal where
  | pynone
  | pyint (n : Nat)
  | pystr (s : String)
  | pylist (l : List String)
  | pydata (d : Nat)
deriving DecidableEq, Repr

/-- ApiResponseModel (lines 19-26) with every field explicitly set, as the
`ApiResponse` constructor does: `code: int`, `message: str`, `data: Any =
None`, `errors: list[str] | None = None`, `timestamp: int`. -/
structure ApiResponseModel where
  code : PyVal
  message : PyVal
  data : PyVal
  errors : PyVal
  timestamp : PyVal
deriving DecidableEq, Repr

/-- The serialized envelope: for each of the five model fields, `some v` if
the field appears in the dict produced by `.dict(...)` with value `v`, and
`none` if the field is excluded. -/
structure EnvelopeDict where
  code : Option PyVal
  message : Option PyVal
  data : Option PyVal
  errors : Option PyVal
  timestamp : Option PyVal
deriving DecidableEq, Repr

/-- Pydantic `.dict(exclude_unset=True, exclude_defaults=True)` on an
`ApiResponseModel` whose five fields were all explicitly set (so
exclude_unset excludes nothing): a field is emitted unless its value equals
its declared default. `data` and `errors` default to None; the required
fields `code`, `message`, `timestamp` carry None as the stored default that
`exclude_defaults` compares against, and their int/str values never equal
None. Hence every field is excluded exactly when its value is None. -/
def ApiResponseModel.dict (m : ApiResponseModel) : EnvelopeDict :=
  { code := if m.code = PyVal.pynone then Option.none else some m.code
  , message := if m.message = PyVal.pynone then Option.none else some m.message
  , data := if m.data = PyVal.pynone then Option.none else some m.data
  , errors := if m.errors = PyVal.pynone then Option.none else some m.errors
  , timestamp := if m.timestamp = PyVal.pynone then Option.none else some m.timestamp }

/-- The `errors` argument of the `ApiResponse` constructor:
`str | list[str] | None`. -/
inductive ErrorsArg where
  | noArg
  | str (s : String)
  | list (l : List String)
deriving DecidableEq, Repr

/-- Error normalization in `ApiResponse.__init__` (lines 40-43):
`processed_errors = None; if errors: processed_errors = [errors] if
isinstance(errors, str) else errors`. Python truthiness makes None, the
empty string and the empty list all falsy. -/
def processErrors : ErrorsArg → Option (List String)
  | ErrorsArg.noArg => Option.none
  | ErrorsArg.str s => if s = "" then Option.none else some [s]
  | ErrorsArg.list l => if l = [] then Option.none else some l

/-- An `ApiResponse`: the HTTP status code plus the serialized envelope
content. -/
structure ApiResponse where
  status_code : Nat
  content : EnvelopeDict
deriving DecidableEq, Repr

/-- The `ApiResponse` constructor (lines 32-50) at wall-clock second `now`:
normalize the errors argument, build the `ApiResponseModel` with code =
status_code, the given message and data, the processed errors and
`timestamp = int(time())`, and serialize it with
`.dict(exclude_unset=True, exclude_defaults=True)`. -/
def ApiResponse.make (now : Nat) (status_code : Nat) (message : String)
    (data : PyVal) (errors : ErrorsArg) : ApiResponse :=
  let processed := processErrors errors
  let model : ApiResponseModel :=
    { code := PyVal.pyint status_code
    , message := PyVal.pystr message
    , data := data
    , errors :=
        match processed with
        | Option.none => PyVal.pynone
        | some l => PyVal.pylist l
    , timestamp := PyVal.pyint now }
  { status_code := status_code, content := model.dict }

/-- Classmethod `ApiResponse.success` (lines 52-57): a response with the
given data and no errors argument. -/
def ApiResponse.success (now : Nat) (data : PyVal) (message : String)
    (status_code : Nat) : ApiResponse :=
  ApiResponse.make now status_code message data ErrorsArg.noArg

/-- Classmethod `ApiResponse.error` (lines 59-64): a response with the given
errors and no data argument. -/
def ApiResponse.error (now : Nat) (errors : ErrorsArg) (message : String)
    (status_code : Nat) : ApiResponse :=
  ApiResponse.make now status_code message PyVal.pynone errors

/-! ## The request handler `_api_web` (src/web/app.py lines 145-237) -/

/-- Outcome of one call to the external `qrcode_login_example` coroutine:
it returns a fresh Credential, returns None (timeout or LoginError), or lets
an exception propagate to its caller. -/
inductive LoginResult where
  | ok (c : Credential)
  | failed
  | raised
deriving DecidableEq, Repr

/-- Observable events of one handler execution, in order. Lock events record
entry to and exit from the `with credential_lock` blocks; `login site r`
records a call to `qrcode_login_example` from call site 1 (the guard block,
line 179) or site 2 (the expired-error block, line 220); `saveCall` records a
call to save_credential_to_file; `refreshCall c` records `c.refresh()`;
`parseCall` records `parser.parse()`. -/
inductive Event where
  | acqLock
  | relLock
  | login (site : Nat) (r : LoginResult)
  | refreshCall (c : Credential)
  | saveCall (c : Credential)
  | parseCall
deriving DecidableEq, Repr

/-- Whether an event is a login call (either site). -/
def Event.isLogin : Event → Bool
  | Event.login _ _ => true
  | _ => false

/-- Whether an event is a login call from the given call site. -/
def Event.isLoginAt (site : Nat) : Event → Bool
  | Event.login s _ => s == site
  | _ => false

/-- Whether an event is the parser call. -/
def Event.isParse : Event → Bool
  | Event.parseCall => true
  | _ => false

/-- The module-level mutable state of src/web/app.py: the shared credential
slot `global_credential`, the `is_logging_in` flag, the storage file, and the
ambient session credential installed at line 191. -/
structure ServerState where
  global_credential : Option Credential
  is_logging_in : Bool
  storage : FsState
  session_credential : Option Credential

/-- Outcome of the external `parser.parse()` call plus the `parser.valid`
attribute read at line 231: either the call raised, or it returned the pair
`(result, errors)`. -/
structure ParseOut where
  raised : Bool
  result : Option Nat
  errors : List String
  valid : Bool

/-- Per-request oracle fixing the outcome of every external call the handler
may make: the result of `Credential.from_cookies_dict` (line 170), the two
potential `qrcode_login_example` calls with the fault status of their
follow-up file writes, whether `refresh()` raises (line 187), and the parser
outcome. -/
structure Oracle where
  fromCookies : Except Unit Credential
  login1 : LoginResult
  save1Fails : Bool
  refreshRaises : Bool
  parse : ParseOut
  login2 : LoginResult
  save2Fails : Bool

/-- Output of one internal step of the handler: whether an exception is
propagating out of the step, the server state after it, and the events it
emitted. -/
structure StepOut where
  raised : Bool
  st : ServerState
  tr : List Event

/-- Result of one handler execution: a response, or an exception escaping
`_api_web` (only the expired-error re-login at line 220 can do that). -/
inductive HandlerOutcome where
  | response (r : ApiResponse)
  | raised
deriving DecidableEq, Repr

/-- The envelope of a returned response, if one was returned. -/
def HandlerOutcome.envelope : HandlerOutcome → Option EnvelopeDict
  | HandlerOutcome.response r => some r.content
  | HandlerOutcome.raised => Option.none

/-- Output of one whole handler execution: the outcome (response or escaped
exception), the final server state, and the trace. -/
structure HandlerOut where
  out : HandlerOutcome
  st : ServerState
  tr : List Event

/-- Line 164 condition: the reconstruction/re-login branch is entered iff
`global_credential is None or not (global_credential.is_expired())`. -/
def guardCond (g : Option Credential) : Bool :=
  match g with
  | Option.none => true
  | some c => !c.is_expired

/-- Line 171 acceptance: the credential built from cookies is kept (not
rejected with the Credential-invalid exception) iff
`credential.has_musicid() and credential.has_musickey() and
credential.is_expired()`. -/
def acceptFromCookies (c : Credential) : Bool :=
  c.has_musicid && c.has_musickey && c.is_expired

/-- The inner `try` at lines 166-174: raise if the startup cookies dict is
empty, build a Credential from it, raise unless `acceptFromCookies` holds.
`Except.error ()` means control reaches the `except` at line 175. -/
def tryFromCookies (cookiesEmpty : Bool) (fromCookies : Except Unit Credential) :
    Except Unit Credential :=
  if cookiesEmpty then Except.error ()
  else
    match fromCookies with
    | Except.error _ => Except.error ()
    | Except.ok c => if acceptFromCookies c then Except.ok c else Except.error ()

/-- The re-login sequence shared by lines 177-183 and 218-224: set
`is_logging_in`, call `qrcode_login_example` (installing its result — possibly
None — into the slot), save the credential to the file if one was obtained,
and clear `is_logging_in` in a `finally`. A raised output means the login
call raised; the `finally` still cleared the flag and the exception keeps
propagating. -/
def loginSequence (site : Nat) (lr : LoginResult) (saveFails : Bool)
    (s : ServerState) : StepOut :=
  match lr with
  | LoginResult.raised =>
    { raised := true
    , st := { s with is_logging_in := false }
    , tr := [Event.login site LoginResult.raised] }
  | LoginResult.failed =>
    { raised := false
    , st := { s with global_credential := Option.none, is_logging_in := false }
    , tr := [Event.login site LoginResult.failed] }
  | LoginResult.ok c =>
    { raised := false
    , st :=
        { s with
          global_credential := some c,
          storage := save_credential_to_file ⟨false, false, saveFails⟩ c s.storage,
          is_logging_in := false }
    , tr := [Event.login site (LoginResult.ok c), Event.saveCall c] }

/-- Lines 163-183: the credential reconstruction / re-login step of the
guard block. When the line 164 condition holds, try to rebuild the
credential from the startup cookies and install it; on any failure fall back
to the interactive QR login. -/
def installPhase (cookiesEmpty : Bool) (o : Oracle) (s : ServerState) : StepOut :=
  if guardCond s.global_credential then
    match tryFromCookies cookiesEmpty o.fromCookies with
    | Except.ok c =>
      { raised := false, st := { s with global_credential := some c }, tr := [] }
    | Except.error _ => loginSequence 1 o.login1 o.save1Fails s
  else { raised := false, st := s, tr := [] }

/-- Lines 185-191: `if global_credential.can_refresh(): await
global_credential.refresh()`, then install the slot contents as the ambient
session credential. When the slot holds None (a failed login left it so) the
attribute access raises; when `refresh()` raises the exception propagates;
both reach the `except` at line 192. -/
def refreshPhase (o : Oracle) (s : ServerState) : StepOut :=
  match s.global_credential with
  | Option.none => { raised := true, st := s, tr := [] }
  | some c =>
    if c.can_refresh then
      if o.refreshRaises then { raised := true, st := s, tr := [Event.refreshCall c] }
      else
        { raised := false
        , st :=
            { s with
              global_credential := some c.refresh,
              session_credential := some c.refresh }
        , tr := [Event.refreshCall c] }
    else { raised := false, st := { s with session_credential := some c }, tr := [] }

/-- The whole body of the `with credential_lock` block at lines 162-191: the
install step, then (if no exception is propagating) the refresh step. A
raised output means an exception escaped the block and reaches the `except`
at line 192 (which answers 401). -/
def guardBlock (cookiesEmpty : Bool) (o : Oracle) (s : ServerState) : StepOut :=
  if (installPhase cookiesEmpty o s).raised then installPhase cookiesEmpty o s
  else
    { raised := (refreshPhase o (installPhase cookiesEmpty o s).st).raised
    , st := (refreshPhase o (installPhase cookiesEmpty o s).st).st
    , tr := (installPhase cookiesEmpty o s).tr
          ++ (refreshPhase o (installPhase cookiesEmpty o s).st).tr }

/-- The distinguished upstream credential-expired marker matched at
line 215. -/
def EXPIRED_MARKER : String := "QQ音乐API错误: 凭证已过期"

/-- Lines 212-229: the non-empty-errors branch after the parser ran. If the
error list contains the expired marker, run the re-login sequence under the
credential lock; then (unless that login raised, in which case the exception
escapes the handler) return the original error list with a 422 envelope. -/
def errorPhase (now : Nat) (o : Oracle) (s : ServerState) (errors : List String) :
    HandlerOut :=
  if errors.contains EXPIRED_MARKER then
    { out :=
        if (loginSequence 2 o.login2 o.save2Fails s).raised then HandlerOutcome.raised
        else
          HandlerOutcome.response
            (ApiResponse.error now (ErrorsArg.list errors) "Request Validation Failed" 422)
    , st := (loginSequence 2 o.login2 o.save2Fails s).st
    , tr := Event.acqLock :: (loginSequence 2 o.login2 o.save2Fails s).tr ++ [Event.relLock] }
  else
    { out :=
        HandlerOutcome.response
          (ApiResponse.error now (ErrorsArg.list errors) "Request Validation Failed" 422)
    , st := s
    , tr := [] }

/-- Conversion of the parser result (`Any`, possibly None) to the `data`
argument of the success response. -/
def pyOfResult : Option Nat → PyVal
  | Option.none => PyVal.pynone
  | some d => PyVal.pydata d

/-- The `_api_web` handler (lines 145-237) at wall-clock second `now`, with
`cookiesEmpty` the truthiness of the startup `cookies` dict (line 123) and
`o` fixing every external-call outcome: busy fast-path (503), lock-guarded
credential block (401 when it raises), parser call (500 when it raises),
expired-error re-login and 422 on a non-empty error list, 400 on an invalid
request, and the 200 success envelope otherwise. -/
def handler (cookiesEmpty : Bool) (now : Nat) (o : Oracle) (s : ServerState) :
    HandlerOut :=
  if s.is_logging_in then
    { out :=
        HandlerOutcome.response
          (ApiResponse.error now (ErrorsArg.list ["服务器正在登录，请稍后再试"])
            "Service Unavailable" 503)
    , st := s, tr := [] }
  else if (guardBlock cookiesEmpty o s).raised then
    { out :=
        HandlerOutcome.response
          (ApiResponse.error now (ErrorsArg.str "无效的用户凭证") "Unauthorized" 401)
    , st := (guardBlock cookiesEmpty o s).st
    , tr := Event.acqLock :: (guardBlock cookiesEmpty o s).tr ++ [Event.relLock] }
  else if o.parse.raised then
    { out :=
        HandlerOutcome.response
          (ApiResponse.error now (ErrorsArg.list ["服务器处理请求时发生异常"])
            "Internal Error" 500)
    , st := (guardBlock cookiesEmpty o s).st
    , tr := Event.acqLock :: (guardBlock cookiesEmpty o s).tr ++ [Event.relLock]
          ++ [Event.parseCall] }
  else if o.parse.errors = [] then
    if o.parse.valid then
      { out :=
          HandlerOutcome.response
            (ApiResponse.success now (pyOfResult o.parse.result) "请求成功" 200)
      , st := (guardBlock cookiesEmpty o s).st
      , tr := Event.acqLock :: (guardBlock cookiesEmpty o s).tr ++ [Event.relLock]
            ++ [Event.parseCall] }
    else
      { out :=
          HandlerOutcome.response
            (ApiResponse.error now (ErrorsArg.list ["无效的请求参数"]) "Bad Request" 400)
      , st := (guardBlock cookiesEmpty o s).st
      , tr := Event.acqLock :: (guardBlock cookiesEmpty o s).tr ++ [Event.relLock]
            ++ [Event.parseCall] }
  else
    { out := (errorPhase now o (guardBlock cookiesEmpty o s).st o.parse.errors).out
    , st := (errorPhase now o (guardBlock cookiesEmpty o s).st o.parse.errors).st
    , tr := Event.acqLock :: (guardBlock cookiesEmpty o s).tr ++ [Event.relLock]
          ++ [Event.parseCall]
          ++ (errorPhase now o (guardBlock cookiesEmpty o s).st o.parse.errors).tr }

/-- Check that every login event in a trace happens at lock depth above
zero, starting from depth `d`. -/
def loginsUnderLock : List Event → Nat → Bool
  | [], _ => true
  | Event.acqLock :: es, d => loginsUnderLock es (d + 1)
  | Event.relLock :: es, d => loginsUnderLock es (d - 1)
  | Event.login _ _ :: es, d => decide (0 < d) && loginsUnderLock es d
  | _ :: es, d => loginsUnderLock es d

/-- Check that some login event in a trace happens at lock depth above zero,
starting from depth `d`. -/
def someLoginUnderLock : List Event → Nat → Bool
  | [], _ => false
  | Event.acqLock :: es, d => someLoginUnderLock es (d + 1)
  | Event.relLock :: es, d => someLoginUnderLock es (d - 1)
  | Event.login _ _ :: es, d => decide (0 < d) || someLoginUnderLock es d
  | _ :: es, d => someLoginUnderLock es d

/-- Whether the serialized envelope carries all five model fields. -/
def EnvelopeDict.hasAllFive (e : EnvelopeDict) : Bool :=
  e.code.isSome && e.message.isSome && e.data.isSome && e.errors.isSome && e.timestamp.isSome

/-- Whether the serialized envelope carries the three always-required
fields code, message and timestamp. -/
def EnvelopeDict.hasCore (e : EnvelopeDict) : Bool :=
  e.code.isSome && e.message.isSome && e.timestamp.isSome

/-! ## Concrete sample inputs -/

/-- A credential with both required fields, not expired, not refreshable. -/
def validCred : Credential :=
  { musicid := true, musickey := true, expired := false, refreshable := false
  , ident := 1, payload := 10 }

/-- A credential with both required fields, expired, refreshable. -/
def expiredRefreshableCred : Credential :=
  { musicid := true, musickey := true, expired := true, refreshable := true
  , ident := 2, payload := 20 }

/-- A fresh credential as produced by a successful QR login. -/
def freshCred : Credential :=
  { musicid := true, musickey := true, expired := false, refreshable := false
  , ident := 3, payload := 30 }

/-- A fresh refreshable credential as produced by a successful QR login. -/
def freshRefreshableCred : Credential :=
  { musicid := true, musickey := true, expired := false, refreshable := true
  , ident := 4, payload := 40 }

/-- A storage file holding the freshly created empty config. -/
def initialFs : FsState := ⟨some (Except.ok emptyConfig)⟩

/-- A quiescent server state: given slot contents, flag down, storage at the
empty config, no session credential installed. -/
def state0 (g : Option Credential) : ServerState :=
  { global_credential := g, is_logging_in := false, storage := initialFs
  , session_credential := Option.none }

/-- A base oracle: cookie reconstruction raises, both logins time out, no
I/O faults, the parser returns no data, no errors and a valid request. -/
def oBase : Oracle :=
  { fromCookies := Except.error (), login1 := LoginResult.failed, save1Fails := false
  , refreshRaises := false
  , parse := { raised := false, result := Option.none, errors := [], valid := true }
  , login2 := LoginResult.failed, save2Fails := false }

/-! ## Claim theorems -/

/-- C1: the reconstruction/re-login branch of the guard (line 164) is keyed
on `global_credential is None or not is_expired()`: with a current credential
that has both required fields and is NOT expired the branch IS entered (and,
cookies being empty, a full QR login runs), while with an expired current
credential the branch is skipped — the exact opposite of the claimed
entry condition. -/
theorem c1_guard_condition_bug :
    guardCond (some validCred) = true
    ∧ guardCond (some expiredRefreshableCred) = false
    ∧ Event.login 1 (LoginResult.ok freshCred)
        ∈ (handler true 0 { oBase with login1 := LoginResult.ok freshCred }
            (state0 (some validCred))).tr := by
  refine ⟨rfl, rfl, ?_⟩
  decide

/-- C2: the acceptance test for a credential reconstructed from the cookie
file (line 171) requires `is_expired()` to be TRUE: a credential with both
required fields that is not expired is rejected and the QR re-login runs
instead, while an expired credential is installed as current — the exact
opposite of the claimed install condition. -/
theorem c2_install_condition_bug :
    acceptFromCookies validCred = false
    ∧ acceptFromCookies expiredRefreshableCred = true
    ∧ Event.login 1 (LoginResult.ok freshCred)
        ∈ (handler false 0
            { oBase with fromCookies := Except.ok validCred, login1 := LoginResult.ok freshCred }
            (state0 Option.none)).tr
    ∧ (installPhase false { oBase with fromCookies := Except.ok expiredRefreshableCred }
        (state0 Option.none)).st.global_credential = some expiredRefreshableCred := by
  refine ⟨rfl, rfl, ?_, rfl⟩
  decide

/-- C4 counterexample: a request whose guard path only refreshes the current
credential leaves the storage file untouched — `refresh()` is invoked
(the trace shows it) yet the file still holds the startup empty config, not
the refreshed credential's serialized fields, refuting the claim that every
successful refresh is followed by a storage write. -/
theorem c4_counterexample :
    Event.refreshCall expiredRefreshableCred
        ∈ (handler false 0 oBase (state0 (some expiredRefreshableCred))).tr
    ∧ (handler false 0 oBase (state0 (some expiredRefreshableCred))).st.storage
        = initialFs := by
  refine ⟨by decide, rfl⟩

/-- C5 counterexample: in a single request the QR login produces a fresh
refreshable credential and `refresh()` is then invoked on that very
credential (lines 185-187 run unconditionally after the install step),
refuting the claim that refresh is never invoked on a credential just
obtained by a fresh login. -/
theorem c5_counterexample :
    Event.login 1 (LoginResult.ok freshRefreshableCred)
        ∈ (handler true 0 { oBase with login1 := LoginResult.ok freshRefreshableCred }
            (state0 Option.none)).tr
    ∧ Event.refreshCall freshRefreshableCred
        ∈ (handler true 0 { oBase with login1 := LoginResult.ok freshRefreshableCred }
            (state0 Option.none)).tr := by
  refine ⟨by decide, by decide⟩

/-- C6 counterexample: an execution in which the QR login call happens at
positive credential-lock depth — the login I/O at line 179 sits inside the
`with credential_lock` block — refuting the claim that the login I/O never
runs while the lock is held. -/
theorem c6_counterexample :
    someLoginUnderLock
      ((handler true 0 { oBase with login1 := LoginResult.ok freshCred }
          (state0 Option.none)).tr) 0 = true := by
  decide

/-- C8 counterexample: a successful dispatch with a None result is answered
with an envelope that omits the data and errors fields (pydantic
exclude_defaults drops fields equal to their None default), so the response
does not contain all five fields. -/
theorem c8_counterexample :
    Option.map EnvelopeDict.hasAllFive
        ((handler false 5 oBase (state0 (some expiredRefreshableCred))).out.envelope)
      = some false := by
  decide

/-- C9 counterexample: when the config file parses to an object whose
"cookies" key holds a number, load_credential_from_file returns that number
— not a dict — so the helper is not dict-valued on every input. -/
theorem c9_counterexample :
    ((load_credential_from_file ⟨false, false, false⟩
        ⟨some (Except.ok (JValue.jobj [("cookies", JValue.jnum 42)]))⟩).1).isObj = false := by
  rfl

/-- Helper: the shared re-login sequence always terminates with the
in-progress flag cleared, on success, timeout and exception alike (the
`finally` at lines 182-183 and 223-224). -/
theorem loginSequence_flag (site : Nat) (lr : LoginResult) (sf : Bool) (s : ServerState) :
    (loginSequence site lr sf s).st.is_logging_in = false := by
  cases lr <;> rfl

/-- Helper: the install step leaves the flag down when it started down. -/
theorem installPhase_flag (ce : Bool) (o : Oracle) (s : ServerState)
    (h : s.is_logging_in = false) :
    (installPhase ce o s).st.is_logging_in = false := by
  unfold installPhase
  by_cases hg : guardCond s.global_credential = true
  · rw [if_pos hg]
    cases htc : tryFromCookies ce o.fromCookies with
    | ok c => exact h
    | error u => exact loginSequence_flag 1 o.login1 o.save1Fails s
  · rw [if_neg hg]
    exact h

/-- Helper: the refresh step never touches the flag. -/
theorem refreshPhase_flag (o : Oracle) (s : ServerState) :
    (refreshPhase o s).st.is_logging_in = s.is_logging_in := by
  unfold refreshPhase
  split
  · rfl
  · split
    · split <;> rfl
    · rfl

/-- Helper: the whole guard block leaves the flag down when it started
down, whether it completes or escapes by exception. -/
theorem guardBlock_flag (ce : Bool) (o : Oracle) (s : ServerState)
    (h : s.is_logging_in = false) :
    (guardBlock ce o s).st.is_logging_in = false := by
  unfold guardBlock
  by_cases hr : (installPhase ce o s).raised = true
  · rw [if_pos hr]
    exact installPhase_flag ce o s h
  · rw [if_neg hr]
    rw [show (refreshPhase o (installPhase ce o s).st).st.is_logging_in
          = (installPhase ce o s).st.is_logging_in from refreshPhase_flag o _]
    exact installPhase_flag ce o s h

/-- Helper: the expired-error phase leaves the flag down when it started
down, whether the re-login succeeds, fails or raises. -/
theorem errorPhase_flag (now : Nat) (o : Oracle) (s : ServerState) (errs : List String)
    (h : s.is_logging_in = false) :
    (errorPhase now o s errs).st.is_logging_in = false := by
  unfold errorPhase
  by_cases hm : errs.contains EXPIRED_MARKER = true
  · rw [if_pos hm]
    exact loginSequence_flag 2 o.login2 o.save2Fails s
  · rw [if_neg hm]
    exact h

/-- C3: whenever the handler starts with the login-in-progress flag down, it
terminates — normal response, error response or escaping exception alike —
with the flag down again: the flag is raised only inside a re-login
sequence and is cleared by the `finally` on every outcome. -/
theorem c3_flag_invariant (ce : Bool) (now : Nat) (o : Oracle) (s : ServerState)
    (h : s.is_logging_in = false) :
    (handler ce now o s).st.is_logging_in = false := by
  unfold handler
  rw [h]
  simp only [Bool.false_eq_true, if_false]
  by_cases hr : (guardBlock ce o s).raised = true
  · rw [if_pos hr]
    exact guardBlock_flag ce o s h
  · rw [if_neg hr]
    by_cases hp : o.parse.raised = true
    · rw [if_pos hp]
      exact guardBlock_flag ce o s h
    · rw [if_neg hp]
      by_cases he : o.parse.errors = []
      · rw [if_pos he]
        by_cases hv : o.parse.valid = true
        · rw [if_pos hv]
          exact guardBlock_flag ce o s h
        · rw [if_neg hv]
          exact guardBlock_flag ce o s h
      · rw [if_neg he]
        exact errorPhase_flag now o _ _ (guardBlock_flag ce o s h)

/-- C3 witness: the flag invariant at a concrete quiescent state and the
base oracle. -/
theorem c3_flag_invariant_witness :
    (handler true 0 oBase (state0 Option.none)).st.is_logging_in = false :=
  c3_flag_invariant true 0 oBase (state0 Option.none) rfl

/-- Helper predicate: an event other than a lock acquire or release. -/
def offLockEvent (e : Event) : Bool :=
  match e with
  | Event.acqLock => false
  | Event.relLock => false
  | _ => true

/-- Helper: the re-login sequence emits no lock events. -/
theorem loginSequence_offLock (site : Nat) (lr : LoginResult) (sf : Bool) (s : ServerState) :
    ((loginSequence site lr sf s).tr.all offLockEvent) = true := by
  cases lr <;> rfl

/-- Helper: the install step emits no lock events. -/
theorem installPhase_offLock (ce : Bool) (o : Oracle) (s : ServerState) :
    ((installPhase ce o s).tr.all offLockEvent) = true := by
  unfold installPhase
  by_cases hg : guardCond s.global_credential = true
  · rw [if_pos hg]
    cases htc : tryFromCookies ce o.fromCookies with
    | ok c => rfl
    | error u => exact loginSequence_offLock 1 o.login1 o.save1Fails s
  · rw [if_neg hg]; rfl

/-- Helper: the refresh step emits no lock events. -/
theorem refreshPhase_offLock (o : Oracle) (s : ServerState) :
    ((refreshPhase o s).tr.all offLockEvent) = true := by
  unfold refreshPhase
  split
  · rfl
  · split
    · split <;> rfl
    · rfl

/-- Helper: the guard block emits no lock events of its own (the handler
wraps its trace in the acquire/release pair). -/
theorem guardBlock_offLock (ce : Bool) (o : Oracle) (s : ServerState) :
    ((guardBlock ce o s).tr.all offLockEvent) = true := by
  unfold guardBlock
  by_cases hr : (installPhase ce o s).raised = true
  · rw [if_pos hr]
    exact installPhase_offLock ce o s
  · rw [if_neg hr]
    show (((installPhase ce o s).tr ++ (refreshPhase o (installPhase ce o s).st).tr).all
      offLockEvent) = true
    rw [List.all_append]
    rw [installPhase_offLock ce o s, refreshPhase_offLock o _]
    rfl

/-- Helper: an all-offLockEvent trace contains no lock events. -/
theorem offLock_spec (t : List Event) (h : t.all offLockEvent = true) :
    ∀ e ∈ t, e ≠ Event.acqLock ∧ e ≠ Event.relLock := by
  intro e he
  have h1 := List.all_eq_true.mp h e he
  cases e <;> simp [offLockEvent] at h1 ⊢

/-- Helper: appending a lock-event-free trace at positive depth does not
change the all-logins-under-lock check. -/
theorem loginsUnderLock_append (t u : List Event) (d : Nat) (hd : 0 < d)
    (ht : ∀ e ∈ t, e ≠ Event.acqLock ∧ e ≠ Event.relLock) :
    loginsUnderLock (t ++ u) d = loginsUnderLock u d := by
  induction t with
  | nil => rfl
  | cons e es ih =>
    have h1 := ht e (List.mem_cons_self e es)
    have h2 : ∀ x ∈ es, x ≠ Event.acqLock ∧ x ≠ Event.relLock :=
      fun x hx => ht x (List.mem_cons_of_mem e hx)
    cases e with
    | acqLock => exact absurd rfl h1.1
    | relLock => exact absurd rfl h1.2
    | login site r =>
      show (decide (0 < d) && loginsUnderLock (es ++ u) d) = loginsUnderLock u d
      rw [decide_eq_true hd, Bool.true_and]
      exact ih h2
    | refreshCall c => exact ih h2
    | saveCall c => exact ih h2
    | parseCall => exact ih h2

/-- Helper: a complete lock-bracketed block whose interior has no lock
events passes the under-lock check and restores the depth. -/
theorem loginsUnderLock_block (t u : List Event) (d : Nat)
    (ht : ∀ e ∈ t, e ≠ Event.acqLock ∧ e ≠ Event.relLock) :
    loginsUnderLock (Event.acqLock :: t ++ [Event.relLock] ++ u) d = loginsUnderLock u d := by
  show loginsUnderLock (t ++ [Event.relLock] ++ u) (d + 1) = loginsUnderLock u d
  rw [List.append_assoc]
  rw [loginsUnderLock_append t _ (d + 1) (Nat.succ_pos d) ht]
  show loginsUnderLock u (d + 1 - 1) = loginsUnderLock u d
  rw [Nat.add_sub_cancel]

/-- Helper: the re-login sequence records its own login call in its trace. -/
theorem loginSequence_has_login (site : Nat) (lr : LoginResult) (sf : Bool) (s : ServerState) :
    Event.login site lr ∈ (loginSequence site lr sf s).tr := by
  cases lr with
  | ok c => exact List.mem_cons_self _ _
  | failed => exact List.mem_cons_self _ _
  | raised => exact List.mem_cons_self _ _

/-- Helper: an install step whose trace shows no login leaves the storage
file untouched. -/
theorem installPhase_storage (ce : Bool) (o : Oracle) (s : ServerState)
    (h : ∀ e ∈ (installPhase ce o s).tr, e.isLogin = false) :
    (installPhase ce o s).st.storage = s.storage := by
  unfold installPhase at h ⊢
  by_cases hg : guardCond s.global_credential = true
  · rw [if_pos hg] at h ⊢
    cases htc : tryFromCookies ce o.fromCookies with
    | ok c => rfl
    | error u =>
      rw [htc] at h
      exfalso
      have hm := loginSequence_has_login 1 o.login1 o.save1Fails s
      have h2 := h _ hm
      simp [Event.isLogin] at h2
  · rw [if_neg hg]

/-- Helper: the refresh step never touches the storage file. -/
theorem refreshPhase_storage (o : Oracle) (s : ServerState) :
    (refreshPhase o s).st.storage = s.storage := by
  unfold refreshPhase
  split
  · rfl
  · split
    · split <;> rfl
    · rfl

/-- Helper: a guard block whose trace shows no login leaves the storage
file untouched. -/
theorem guardBlock_storage (ce : Bool) (o : Oracle) (s : ServerState)
    (h : ∀ e ∈ (guardBlock ce o s).tr, e.isLogin = false) :
    (guardBlock ce o s).st.storage = s.storage := by
  unfold guardBlock at h ⊢
  by_cases hr : (installPhase ce o s).raised = true
  · rw [if_pos hr] at h ⊢
    exact installPhase_storage ce o s h
  · rw [if_neg hr] at h ⊢
    show (refreshPhase o (installPhase ce o s).st).st.storage = s.storage
    rw [refreshPhase_storage o _]
    apply installPhase_storage ce o s
    intro e he
    apply h
    show e ∈ (installPhase ce o s).tr ++ (refreshPhase o (installPhase ce o s).st).tr
    exact List.mem_append_left _ he

/-- Helper: the expired-error phase runs a login whenever the marker is
present, so a login-free error-phase trace means untouched storage. -/
theorem errorPhase_storage (now : Nat) (o : Oracle) (s : ServerState) (errs : List String)
    (h : ∀ e ∈ (errorPhase now o s errs).tr, e.isLogin = false) :
    (errorPhase now o s errs).st.storage = s.storage := by
  unfold errorPhase at h ⊢
  by_cases hm : errs.contains EXPIRED_MARKER = true
  · rw [if_pos hm] at h ⊢
    exfalso
    have hm2 := loginSequence_has_login 2 o.login2 o.save2Fails s
    have h2 := h _ (List.mem_cons_of_mem _ (List.mem_append_left _ hm2))
    simp [Event.isLogin] at h2
  · rw [if_neg hm] at h ⊢

/-- Helper: a handler run whose trace shows no login leaves the storage
file untouched. -/
theorem handler_storage (ce : Bool) (now : Nat) (o : Oracle) (s : ServerState)
    (h : ∀ e ∈ (handler ce now o s).tr, e.isLogin = false) :
    (handler ce now o s).st.storage = s.storage := by
  unfold handler at h ⊢
  by_cases hb : s.is_logging_in = true
  · rw [if_pos hb]
  · rw [if_neg hb] at h ⊢
    by_cases hr : (guardBlock ce o s).raised = true
    · rw [if_pos hr] at h ⊢
      apply guardBlock_storage ce o s
      intro e he
      apply h
      show e ∈ Event.acqLock :: (guardBlock ce o s).tr ++ [Event.relLock]
      exact List.mem_cons_of_mem _ (List.mem_append_left _ he)
    · rw [if_neg hr] at h ⊢
      by_cases hp : o.parse.raised = true
      · rw [if_pos hp] at h ⊢
        apply guardBlock_storage ce o s
        intro e he
        apply h
        show e ∈ Event.acqLock :: (guardBlock ce o s).tr ++ [Event.relLock] ++ [Event.parseCall]
        exact List.mem_cons_of_mem _ (List.mem_append_left _ (List.mem_append_left _ he))
      · rw [if_neg hp] at h ⊢
        by_cases he2 : o.parse.errors = []
        · rw [if_pos he2] at h ⊢
          by_cases hv : o.parse.valid = true
          · rw [if_pos hv] at h ⊢
            apply guardBlock_storage ce o s
            intro e he
            apply h
            show e ∈ Event.acqLock :: (guardBlock ce o s).tr ++ [Event.relLock]
                ++ [Event.parseCall]
            exact List.mem_cons_of_mem _ (List.mem_append_left _ (List.mem_append_left _ he))
          · rw [if_neg hv] at h ⊢
            apply guardBlock_storage ce o s
            intro e he
            apply h
            show e ∈ Event.acqLock :: (guardBlock ce o s).tr ++ [Event.relLock]
                ++ [Event.parseCall]
            exact List.mem_cons_of_mem _ (List.mem_append_left _ (List.mem_append_left _ he))
        · rw [if_neg he2] at h ⊢
          have hep : (errorPhase now o (guardBlock ce o s).st o.parse.errors).st.storage
              = (guardBlock ce o s).st.storage := by
            apply errorPhase_storage
            intro e he
            apply h
            show e ∈ Event.acqLock :: (guardBlock ce o s).tr ++ [Event.relLock]
                ++ [Event.parseCall]
                ++ (errorPhase now o (guardBlock ce o s).st o.parse.errors).tr
            exact List.mem_cons_of_mem _ (List.mem_append_right _ he)
          have hgb : (guardBlock ce o s).st.storage = s.storage := by
            apply guardBlock_storage ce o s
            intro e he
            apply h
            show e ∈ Event.acqLock :: (guardBlock ce o s).tr ++ [Event.relLock]
                ++ [Event.parseCall]
                ++ (errorPhase now o (guardBlock ce o s).st o.parse.errors).tr
            exact List.mem_cons_of_mem _
              (List.mem_append_left _ (List.mem_append_left _ (List.mem_append_left _ he)))
          show (errorPhase now o (guardBlock ce o s).st o.parse.errors).st.storage = s.storage
          rw [hep, hgb]

/-- C4 amended: a successful login immediately persists the serialized
credential (the re-login sequence with a fault-free write leaves the storage
file holding exactly the serialized new credential), while a request whose
trace shows no login — in particular one that only refreshed the current
credential — leaves the storage file exactly as it was: refresh() itself
never writes to storage. -/
theorem c4_amended_persistence (site : Nat) (ce : Bool) (now : Nat) (o : Oracle)
    (s : ServerState) (c : Credential) :
    (loginSequence site (LoginResult.ok c) false s).st.storage
        = ⟨some (Except.ok (JValue.jobj [("cookies", c.as_dict)]))⟩
    ∧ ((∀ e ∈ (handler ce now o s).tr, e.isLogin = false) →
        (handler ce now o s).st.storage = s.storage) :=
  ⟨rfl, handler_storage ce now o s⟩

/-- C4 amended witness: a fault-free login persists the fresh credential,
and the refresh-only run of the C4 counterexample leaves storage at its
initial contents. -/
theorem c4_amended_persistence_witness :
    (loginSequence 1 (LoginResult.ok freshCred) false (state0 Option.none)).st.storage
        = ⟨some (Except.ok (JValue.jobj [("cookies", freshCred.as_dict)]))⟩
    ∧ (handler false 0 oBase (state0 (some expiredRefreshableCred))).st.storage
        = (state0 (some expiredRefreshableCred)).storage :=
  ⟨(c4_amended_persistence 1 false 0 oBase (state0 Option.none) freshCred).1,
   (c4_amended_persistence 1 false 0 oBase (state0 (some expiredRefreshableCred)) freshCred).2
     (by decide)⟩

/-- C5 amended: refresh() is invoked in the refresh step exactly when the
credential slot — whatever path filled it: pre-existing, reconstructed from
cookies, or freshly logged in — holds a credential whose can_refresh() is
true; on a non-raising refresh the slot keeps the same object, mutated in
place (same identity), not a replacement. -/
theorem c5_amended_refresh (o : Oracle) (s : ServerState) (c : Credential) :
    (Event.refreshCall c ∈ (refreshPhase o s).tr
        ↔ s.global_credential = some c ∧ c.can_refresh = true)
    ∧ (s.global_credential = some c → c.can_refresh = true → o.refreshRaises = false →
        (refreshPhase o s).st.global_credential = some c.refresh
          ∧ c.refresh.ident = c.ident) := by
  constructor
  · unfold refreshPhase
    split
    · next heq =>
      constructor
      · intro hmem
        exact absurd hmem (List.not_mem_nil _)
      · rintro ⟨hsl, h2⟩
        rw [heq] at hsl
        cases hsl
    · next c0 heq =>
      split
      · next hcr =>
        split
        · constructor
          · intro hmem
            have hc : c = c0 := by simpa using hmem
            subst hc
            exact ⟨heq, hcr⟩
          · rintro ⟨hsl, h2⟩
            rw [heq] at hsl
            injection hsl with hsl
            subst hsl
            exact List.mem_cons_self _ _
        · constructor
          · intro hmem
            have hc : c = c0 := by simpa using hmem
            subst hc
            exact ⟨heq, hcr⟩
          · rintro ⟨hsl, h2⟩
            rw [heq] at hsl
            injection hsl with hsl
            subst hsl
            exact List.mem_cons_self _ _
      · next hcr =>
        constructor
        · intro hmem
          exact absurd hmem (List.not_mem_nil _)
        · rintro ⟨hsl, h2⟩
          rw [heq] at hsl
          injection hsl with hsl
          subst hsl
          exact absurd h2 hcr
  · intro h1 h2 h3
    unfold refreshPhase
    split
    · next heq =>
      rw [heq] at h1
      cases h1
    · next c0 heq =>
      rw [heq] at h1
      injection h1 with h1
      subst h1
      split
      · split
        · next hrr =>
          rw [h3] at hrr
          cases hrr
        · exact ⟨rfl, rfl⟩
      · next hcr =>
        exact absurd h2 hcr

/-- C5 amended witness: the characterization applied at a state holding an
expired refreshable credential: refresh is called on it, and the slot ends
holding the same object refreshed in place. -/
theorem c5_amended_refresh_witness :
    Event.refreshCall expiredRefreshableCred
        ∈ (refreshPhase oBase (state0 (some expiredRefreshableCred))).tr
    ∧ (refreshPhase oBase (state0 (some expiredRefreshableCred))).st.global_credential
        = some expiredRefreshableCred.refresh
    ∧ expiredRefreshableCred.refresh.ident = expiredRefreshableCred.ident :=
  ⟨((c5_amended_refresh oBase (state0 (some expiredRefreshableCred))
      expiredRefreshableCred).1).mpr ⟨rfl, rfl⟩,
   ((c5_amended_refresh oBase (state0 (some expiredRefreshableCred))
      expiredRefreshableCred).2 rfl rfl rfl).1,
   ((c5_amended_refresh oBase (state0 (some expiredRefreshableCred))
      expiredRefreshableCred).2 rfl rfl rfl).2⟩

/-- Helper: the expired-error phase keeps every login it makes under the
credential lock. -/
theorem errorPhase_lock (now : Nat) (o : Oracle) (s : ServerState) (errs : List String) :
    loginsUnderLock ((errorPhase now o s errs).tr) 0 = true := by
  unfold errorPhase
  by_cases hm : errs.contains EXPIRED_MARKER = true
  · rw [if_pos hm]
    show loginsUnderLock
      (Event.acqLock :: (loginSequence 2 o.login2 o.save2Fails s).tr ++ [Event.relLock]) 0 = true
    have hg := offLock_spec _ (loginSequence_offLock 2 o.login2 o.save2Fails s)
    have h2 := loginsUnderLock_block (loginSequence 2 o.login2 o.save2Fails s).tr [] 0 hg
    rw [List.append_nil] at h2
    exact h2
  · rw [if_neg hm]
    rfl

/-- C6 amended: in every handler execution, every QR-login call happens
while the credential-slot lock is held — the two login call sites sit inside
the two `with credential_lock` blocks, so the lock (not only the in-progress
flag) is held across the login network I/O. -/
theorem c6_amended_login_under_lock (ce : Bool) (now : Nat) (o : Oracle) (s : ServerState) :
    loginsUnderLock ((handler ce now o s).tr) 0 = true := by
  unfold handler
  by_cases hb : s.is_logging_in = true
  · rw [if_pos hb]
    rfl
  · rw [if_neg hb]
    have hg := offLock_spec _ (guardBlock_offLock ce o s)
    by_cases hr : (guardBlock ce o s).raised = true
    · rw [if_pos hr]
      show loginsUnderLock (Event.acqLock :: (guardBlock ce o s).tr ++ [Event.relLock]) 0 = true
      have h2 := loginsUnderLock_block (guardBlock ce o s).tr [] 0 hg
      rw [List.append_nil] at h2
      exact h2
    · rw [if_neg hr]
      by_cases hp : o.parse.raised = true
      · rw [if_pos hp]
        show loginsUnderLock
          (Event.acqLock :: (guardBlock ce o s).tr ++ [Event.relLock] ++ [Event.parseCall])
          0 = true
        rw [loginsUnderLock_block (guardBlock ce o s).tr _ 0 hg]
        rfl
      · rw [if_neg hp]
        by_cases he2 : o.parse.errors = []
        · rw [if_pos he2]
          by_cases hv : o.parse.valid = true
          · rw [if_pos hv]
            show loginsUnderLock
              (Event.acqLock :: (guardBlock ce o s).tr ++ [Event.relLock] ++ [Event.parseCall])
              0 = true
            rw [loginsUnderLock_block (guardBlock ce o s).tr _ 0 hg]
            rfl
          · rw [if_neg hv]
            show loginsUnderLock
              (Event.acqLock :: (guardBlock ce o s).tr ++ [Event.relLock] ++ [Event.parseCall])
              0 = true
            rw [loginsUnderLock_block (guardBlock ce o s).tr _ 0 hg]
            rfl
        · rw [if_neg he2]
          show loginsUnderLock
            (Event.acqLock :: (guardBlock ce o s).tr ++ [Event.relLock] ++ [Event.parseCall]
              ++ (errorPhase now o (guardBlock ce o s).st o.parse.errors).tr) 0 = true
          rw [List.append_assoc (Event.acqLock :: (guardBlock ce o s).tr ++ [Event.relLock])]
          rw [loginsUnderLock_block (guardBlock ce o s).tr _ 0 hg]
          show loginsUnderLock
            ((errorPhase now o (guardBlock ce o s).st o.parse.errors).tr) 0 = true
          exact errorPhase_lock now o _ _

/-- Helper: the guard-path re-login sequence contains no site-2 login and
no parser call. -/
theorem loginSequence_count_site1 (lr : LoginResult) (sf : Bool) (s : ServerState) :
    ((loginSequence 1 lr sf s).tr.countP (Event.isLoginAt 2)) = 0
      ∧ ((loginSequence 1 lr sf s).tr.countP Event.isParse) = 0 := by
  cases lr <;> exact ⟨rfl, rfl⟩

/-- Helper: the install step records no site-2 login and no parser call. -/
theorem installPhase_counts (ce : Bool) (o : Oracle) (s : ServerState) :
    ((installPhase ce o s).tr.countP (Event.isLoginAt 2)) = 0
      ∧ ((installPhase ce o s).tr.countP Event.isParse) = 0 := by
  unfold installPhase
  by_cases hg : guardCond s.global_credential = true
  · rw [if_pos hg]
    cases htc : tryFromCookies ce o.fromCookies with
    | ok c => exact ⟨rfl, rfl⟩
    | error u => exact loginSequence_count_site1 o.login1 o.save1Fails s
  · rw [if_neg hg]
    exact ⟨rfl, rfl⟩

/-- Helper: the refresh step records no site-2 login and no parser call. -/
theorem refreshPhase_counts (o : Oracle) (s : ServerState) :
    ((refreshPhase o s).tr.countP (Event.isLoginAt 2)) = 0
      ∧ ((refreshPhase o s).tr.countP Event.isParse) = 0 := by
  unfold refreshPhase
  split
  · exact ⟨rfl, rfl⟩
  · split
    · split
      · exact ⟨rfl, rfl⟩
      · exact ⟨rfl, rfl⟩
    · exact ⟨rfl, rfl⟩

/-- Helper: the guard block records no site-2 login and no parser call. -/
theorem guardBlock_counts (ce : Bool) (o : Oracle) (s : ServerState) :
    ((guardBlock ce o s).tr.countP (Event.isLoginAt 2)) = 0
      ∧ ((guardBlock ce o s).tr.countP Event.isParse) = 0 := by
  unfold guardBlock
  by_cases hr : (installPhase ce o s).raised = true
  · rw [if_pos hr]
    exact installPhase_counts ce o s
  · rw [if_neg hr]
    constructor
    · show (((installPhase ce o s).tr ++ (refreshPhase o (installPhase ce o s).st).tr).countP
        (Event.isLoginAt 2)) = 0
      rw [List.countP_append, (installPhase_counts ce o s).1, (refreshPhase_counts o _).1]
    · show (((installPhase ce o s).tr ++ (refreshPhase o (installPhase ce o s).st).tr).countP
        Event.isParse) = 0
      rw [List.countP_append, (installPhase_counts ce o s).2, (refreshPhase_counts o _).2]

/-- Helper: when the marker is present, the expired-error phase records
exactly one site-2 login and no parser call and ends with the flag down; if
the re-login does not raise it answers 422 with the original error list, if
it raises the exception escapes (no response); on a successful, fault-free
write it ends with the new credential persisted. -/
theorem errorPhase_spec (now : Nat) (o : Oracle) (s : ServerState) (errs : List String)
    (c : Credential)
    (hm : errs.contains EXPIRED_MARKER = true) :
    (o.login2 ≠ LoginResult.raised →
        (errorPhase now o s errs).out
          = HandlerOutcome.response
              (ApiResponse.error now (ErrorsArg.list errs) "Request Validation Failed" 422))
    ∧ (o.login2 = LoginResult.raised →
        (errorPhase now o s errs).out = HandlerOutcome.raised)
    ∧ ((errorPhase now o s errs).tr.countP (Event.isLoginAt 2)) = 1
    ∧ ((errorPhase now o s errs).tr.countP Event.isParse) = 0
    ∧ (errorPhase now o s errs).st.is_logging_in = false
    ∧ (o.login2 = LoginResult.ok c → o.save2Fails = false →
        (errorPhase now o s errs).st.storage
          = ⟨some (Except.ok (JValue.jobj [("cookies", c.as_dict)]))⟩) := by
  unfold errorPhase
  rw [if_pos hm]
  cases hll : o.login2 with
  | raised =>
    refine ⟨?_, ?_, rfl, rfl, rfl, ?_⟩
    · intro hne
      exact absurd rfl hne
    · intro h2
      rfl
    · intro h2 h3
      cases h2
  | failed =>
    refine ⟨?_, ?_, rfl, rfl, rfl, ?_⟩
    · intro hne
      rfl
    · intro h2
      cases h2
    · intro h2 h3
      cases h2
  | ok c2 =>
    refine ⟨?_, ?_, rfl, rfl, rfl, ?_⟩
    · intro hne
      rfl
    · intro h2
      cases h2
    · intro h2 h3
      injection h2 with h2
      subst h2
      show save_credential_to_file ⟨false, false, o.save2Fails⟩ c2 s.storage
          = ⟨some (Except.ok (JValue.jobj [("cookies", c2.as_dict)]))⟩
      rw [h3]
      rfl

/-- A request oracle for the expired-error scenario: the parser reports the
expired-credential marker, and the error-path re-login succeeds with
`freshCred`. -/
def oC7 : Oracle :=
  { oBase with
    parse := { raised := false, result := Option.none, errors := [EXPIRED_MARKER], valid := true },
    login2 := LoginResult.ok freshCred }

/-- A request oracle for the expired-error scenario whose error-path
re-login raises (qrcode_login_example re-raises non-LoginError
exceptions). -/
def oC7raise : Oracle :=
  { oC7 with login2 := LoginResult.raised }

/-- C7 counterexample: the parser reports the marker, the re-login attempt
runs (one site-2 login in the trace) but raises, and — the site-2 lock
block having no try/except of its own — the exception escapes the handler:
the outcome is an escaped exception, so the original error list is NOT
returned to the caller with a validation-failure status, refuting the
claim as stated. -/
theorem c7_counterexample :
    (handler false 3 oC7raise (state0 (some expiredRefreshableCred))).out
        = HandlerOutcome.raised
    ∧ ((handler false 3 oC7raise (state0 (some expiredRefreshableCred))).tr.countP
        (Event.isLoginAt 2)) = 1 := by
  exact ⟨rfl, rfl⟩

/-- C7 amended: when the parser returns a non-empty error list containing
the credential-expired marker (the guard block and the parser call having
completed without exception), the handler performs exactly one re-login from
the expired-error call site — under the credential lock, with the flag down
afterwards, and persisting the new credential on a successful fault-free
login — and calls the parser exactly once (so the original dispatch is not
retried); if the re-login completes without raising, the handler still
answers 422 with the original error list, but if the re-login raises, the
exception escapes the handler and no response is returned. -/
theorem c7_expired_relogin (ce : Bool) (now : Nat) (o : Oracle) (s : ServerState)
    (c : Credential)
    (h0 : s.is_logging_in = false)
    (hgr : (guardBlock ce o s).raised = false)
    (hp : o.parse.raised = false)
    (hm : o.parse.errors.contains EXPIRED_MARKER = true) :
    (o.login2 ≠ LoginResult.raised →
        (handler ce now o s).out
          = HandlerOutcome.response
              (ApiResponse.error now (ErrorsArg.list o.parse.errors)
                "Request Validation Failed" 422))
    ∧ (o.login2 = LoginResult.raised →
        (handler ce now o s).out = HandlerOutcome.raised)
    ∧ ((handler ce now o s).tr.countP (Event.isLoginAt 2)) = 1
    ∧ ((handler ce now o s).tr.countP Event.isParse) = 1
    ∧ (handler ce now o s).st.is_logging_in = false
    ∧ (o.login2 = LoginResult.ok c → o.save2Fails = false →
        (handler ce now o s).st.storage
          = ⟨some (Except.ok (JValue.jobj [("cookies", c.as_dict)]))⟩) := by
  have hne : ¬(o.parse.errors = []) := by
    intro h
    rw [h] at hm
    cases hm
  have hsp := errorPhase_spec now o (guardBlock ce o s).st o.parse.errors c hm
  unfold handler
  rw [h0]
  simp only [Bool.false_eq_true, if_false]
  rw [hgr]
  simp only [Bool.false_eq_true, if_false]
  rw [hp]
  simp only [Bool.false_eq_true, if_false]
  rw [if_neg hne]
  refine ⟨hsp.1, hsp.2.1, ?_, ?_, hsp.2.2.2.2.1, hsp.2.2.2.2.2⟩
  · show ((Event.acqLock :: (guardBlock ce o s).tr ++ [Event.relLock] ++ [Event.parseCall]
        ++ (errorPhase now o (guardBlock ce o s).st o.parse.errors).tr).countP
          (Event.isLoginAt 2)) = 1
    rw [List.countP_append, List.countP_append, List.countP_append, List.countP_cons,
      (guardBlock_counts ce o s).1, hsp.2.2.1]
    rfl
  · show ((Event.acqLock :: (guardBlock ce o s).tr ++ [Event.relLock] ++ [Event.parseCall]
        ++ (errorPhase now o (guardBlock ce o s).st o.parse.errors).tr).countP
          Event.isParse) = 1
    rw [List.countP_append, List.countP_append, List.countP_append, List.countP_cons,
      (guardBlock_counts ce o s).2, hsp.2.2.2.1]
    rfl

/-- C7 amended witness: the expired-error re-login theorem at the concrete
oracle oC7 (whose re-login succeeds) from a state holding an expired
refreshable credential, with every implication discharged. -/
theorem c7_expired_relogin_witness :
    (handler false 3 oC7 (state0 (some expiredRefreshableCred))).out
        = HandlerOutcome.response
            (ApiResponse.error 3 (ErrorsArg.list oC7.parse.errors)
              "Request Validation Failed" 422)
    ∧ ((handler false 3 oC7 (state0 (some expiredRefreshableCred))).tr.countP
        (Event.isLoginAt 2)) = 1
    ∧ ((handler false 3 oC7 (state0 (some expiredRefreshableCred))).tr.countP
        Event.isParse) = 1
    ∧ (handler false 3 oC7 (state0 (some expiredRefreshableCred))).st.is_logging_in = false
    ∧ (handler false 3 oC7 (state0 (some expiredRefreshableCred))).st.storage
        = ⟨some (Except.ok (JValue.jobj [("cookies", freshCred.as_dict)]))⟩ := by
  have h := c7_expired_relogin false 3 oC7 (state0 (some expiredRefreshableCred)) freshCred
    rfl rfl rfl (by decide)
  exact ⟨h.1 (by decide), h.2.2.1, h.2.2.2.1, h.2.2.2.2.1, h.2.2.2.2.2 rfl rfl⟩

/-- Helper: every envelope built by the ApiResponse constructor carries
code, message and timestamp (their int/str values never equal the None
default that exclude_defaults compares against). -/
theorem make_hasCore (n1 n2 : Nat) (msg : String) (d : PyVal) (ea : ErrorsArg) :
    EnvelopeDict.hasCore (ApiResponse.make n1 n2 msg d ea).content = true := by
  rfl

/-- Helper: every envelope the expired-error phase returns carries code,
message and timestamp (an escaped exception returns no envelope at all). -/
theorem errorPhase_hasCore (now : Nat) (o : Oracle) (s : ServerState) (errs : List String) :
    Option.all EnvelopeDict.hasCore ((errorPhase now o s errs).out.envelope) = true := by
  unfold errorPhase
  by_cases hm : errs.contains EXPIRED_MARKER = true
  · rw [if_pos hm]
    cases hll : o.login2 <;> rfl
  · rw [if_neg hm]
    rfl

/-- Helper: every envelope the handler returns carries code, message and
timestamp. -/
theorem handler_hasCore (ce : Bool) (now : Nat) (o : Oracle) (s : ServerState) :
    Option.all EnvelopeDict.hasCore ((handler ce now o s).out.envelope) = true := by
  unfold handler
  by_cases hb : s.is_logging_in = true
  · rw [if_pos hb]
    rfl
  · rw [if_neg hb]
    by_cases hr : (guardBlock ce o s).raised = true
    · rw [if_pos hr]
      rfl
    · rw [if_neg hr]
      by_cases hp : o.parse.raised = true
      · rw [if_pos hp]
        rfl
      · rw [if_neg hp]
        by_cases he2 : o.parse.errors = []
        · rw [if_pos he2]
          by_cases hv : o.parse.valid = true
          · rw [if_pos hv]
            rfl
          · rw [if_neg hv]
            rfl
        · rw [if_neg he2]
          exact errorPhase_hasCore now o _ _

/-- C8 amended: every envelope built by the response constructor always
carries the three required fields code, message and timestamp, while the
data and errors fields are omitted exactly when their value is None
(pydantic exclude_defaults) — they are never present as null; consequently
every response the endpoint returns carries code, message and timestamp. -/
theorem c8_amended_envelope (now sc : Nat) (msg : String) (data : PyVal)
    (errors : ErrorsArg) (ce : Bool) (n2 : Nat) (o : Oracle) (s : ServerState) :
    (ApiResponse.make now sc msg data errors).content.code = some (PyVal.pyint sc)
    ∧ (ApiResponse.make now sc msg data errors).content.message = some (PyVal.pystr msg)
    ∧ (ApiResponse.make now sc msg data errors).content.timestamp = some (PyVal.pyint now)
    ∧ (ApiResponse.make now sc msg data errors).content.data.isSome
        = decide (data ≠ PyVal.pynone)
    ∧ (ApiResponse.make now sc msg data errors).content.errors.isSome
        = decide (processErrors errors ≠ Option.none)
    ∧ Option.all EnvelopeDict.hasCore ((handler ce n2 o s).out.envelope) = true := by
  refine ⟨rfl, rfl, rfl, ?_, ?_, handler_hasCore ce n2 o s⟩
  · cases data <;> rfl
  · show (ApiResponse.make now sc msg data errors).content.errors.isSome
        = decide (processErrors errors ≠ Option.none)
    unfold ApiResponse.make ApiResponseModel.dict
    rcases hpe : processErrors errors with _ | l <;> simp [hpe]

/-- Helper: the re-login sequence installs the freshly obtained credential
in the slot regardless of whether the follow-up file write faults. -/
theorem loginSequence_installs (site : Nat) (c : Credential) (sf : Bool) (s : ServerState) :
    (loginSequence site (LoginResult.ok c) sf s).st.global_credential = some c := by
  rfl

/-- C9 amended: both storage helpers are total — load_credential_from_file
answers the empty dict whenever its body raises, and otherwise returns the
parsed file's "cookies" value as-is (whatever JSON value that is);
save_credential_to_file never raises, leaving the file unchanged on a write
fault and otherwise overwriting it with the serialized credential; and a
write fault never rolls back a just-installed credential. -/
theorem c9_amended_totality (f : IOFaults) (fs : FsState) (c : Credential)
    (site : Nat) (sf : Bool) (s : ServerState) (kvs : List (String × JValue)) :
    ((loadBody f fs).1 = Except.error () →
        (load_credential_from_file f fs).1 = JValue.jobj [])
    ∧ (fs.file = some (Except.ok (JValue.jobj kvs)) → f.readFails = false →
        (load_credential_from_file f fs).1 = (kvs.lookup "cookies").getD (JValue.jobj []))
    ∧ (f.writeFails = true → save_credential_to_file f c fs = fs)
    ∧ (f.writeFails = false →
        save_credential_to_file f c fs
          = ⟨some (Except.ok (JValue.jobj [("cookies", c.as_dict)]))⟩)
    ∧ (loginSequence site (LoginResult.ok c) sf s).st.global_credential = some c := by
  refine ⟨?_, ?_, ?_, ?_, loginSequence_installs site c sf s⟩
  · intro h
    unfold load_credential_from_file
    rcases hlb : loadBody f fs with ⟨r, fs1⟩
    rw [hlb] at h
    cases r with
    | ok v => cases h
    | error u => rfl
  · intro hf hr
    unfold load_credential_from_file loadBody readStep
    rw [hf, hr]
    rfl
  · intro h
    unfold save_credential_to_file
    rw [h]
    rfl
  · intro h
    unfold save_credential_to_file
    rw [h]
    rfl

/-- C9 amended witness: the totality theorem applied at concrete fault
patterns — a failing read answers the empty dict, a clean read returns the
stored cookies value, a faulted write leaves the file unchanged, a clean
write overwrites it, and a faulted write still leaves the fresh credential
installed. -/
theorem c9_amended_totality_witness :
    (load_credential_from_file ⟨false, true, false⟩ initialFs).1 = JValue.jobj []
    ∧ (load_credential_from_file ⟨false, false, false⟩ initialFs).1
        = (([("cookies", JValue.jobj [])].lookup "cookies").getD (JValue.jobj []))
    ∧ save_credential_to_file ⟨false, false, true⟩ freshCred initialFs = initialFs
    ∧ save_credential_to_file ⟨false, false, false⟩ freshCred initialFs
        = ⟨some (Except.ok (JValue.jobj [("cookies", freshCred.as_dict)]))⟩
    ∧ (loginSequence 1 (LoginResult.ok freshCred) true
        (state0 Option.none)).st.global_credential = some freshCred := by
  refine ⟨?_, ?_, ?_, ?_, ?_⟩
  · exact (c9_amended_totality ⟨false, true, false⟩ initialFs freshCred 1 true
      (state0 Option.none) [("cookies", JValue.jobj [])]).1 rfl
  · exact (c9_amended_totality ⟨false, false, false⟩ initialFs freshCred 1 true
      (state0 Option.none) [("cookies", JValue.jobj [])]).2.1 rfl rfl
  · exact (c9_amended_totality ⟨false, false, true⟩ initialFs freshCred 1 true
      (state0 Option.none) [("cookies", JValue.jobj [])]).2.2.1 rfl
  · exact (c9_amended_totality ⟨false, false, false⟩ initialFs freshCred 1 true
      (state0 Option.none) [("cookies", JValue.jobj [])]).2.2.2.1 rfl
  · exact (c9_amended_totality ⟨false, false, false⟩ initialFs freshCred 1 true
      (state0 Option.none) [("cookies", JValue.jobj [])]).2.2.2.2

/-- C10: error normalization in the ApiResponse constructor — an error
response built from a non-empty string carries exactly the one-element list
holding that string, one built from a non-empty list carries that list
unchanged, and an empty string, empty list or absent errors argument yields
no errors content in the envelope. -/
theorem c10_error_normalization (now sc : Nat) (msg s : String) (l : List String)
    (hs : s ≠ "") (hl : l ≠ []) :
    (ApiResponse.error now (ErrorsArg.str s) msg sc).content.errors
        = some (PyVal.pylist [s])
    ∧ (ApiResponse.error now (ErrorsArg.list l) msg sc).content.errors
        = some (PyVal.pylist l)
    ∧ (ApiResponse.error now (ErrorsArg.str "") msg sc).content.errors = Option.none
    ∧ (ApiResponse.error now (ErrorsArg.list []) msg sc).content.errors = Option.none
    ∧ (ApiResponse.make now sc msg PyVal.pynone ErrorsArg.noArg).content.errors
        = Option.none := by
  refine ⟨?_, ?_, rfl, rfl, rfl⟩
  · simp [ApiResponse.error, ApiResponse.make, ApiResponseModel.dict, processErrors, hs]
  · simp [ApiResponse.error, ApiResponse.make, ApiResponseModel.dict, processErrors, hl]

/-- C10 witness: the error-normalization theorem instantiated at the
non-empty string "x" and the non-empty list ["y"]. -/
theorem c10_error_normalization_witness :
    (ApiResponse.error 7 (ErrorsArg.str "x") "Error" 400).content.errors
        = some (PyVal.pylist ["x"])
    ∧ (ApiResponse.error 7 (ErrorsArg.list ["y"]) "Error" 400).content.errors
        = some (PyVal.pylist ["y"])
    ∧ (ApiResponse.error 7 (ErrorsArg.str "") "Error" 400).content.errors = Option.none
    ∧ (ApiResponse.error 7 (ErrorsArg.list []) "Error" 400).content.errors = Option.none
    ∧ (ApiResponse.make 7 400 "Error" PyVal.pynone ErrorsArg.noArg).content.errors
        = Option.none :=
  c10_error_normalization 7 400 "Error" "x" ["y"] (by decide) (by decide)

end PyQQMusic
